import Mathlib

/-!
A shallow embedding of `src/homework.py`, a fitness-tracker script that
computes distance, mean speed and calories for three workout kinds
(running, sports walking, swimming) and formats a report line.

Modelling conventions:
* Python floats are modelled by exact rationals `ℚ`; the numeric formulas
  are translated literally from the source.
* Python division raises `ZeroDivisionError` on a zero denominator (also
  for floats), so every division whose denominator is a runtime field goes
  through `pyDiv`, which returns `Except PyError ℚ`.  Divisions by the
  nonzero class constants (`M_IN_KM = 1000`, `METR_IN_SANTIMETR = 100`)
  cannot raise and use plain `/`.
* `Training.get_spent_calories` on the base class raises
  `NotImplementedError`; this is the `PyError.notImplementedError` outcome.
* The class hierarchy (base `Training` with three subclasses) is an
  inductive with four constructors; dynamically dispatched attributes
  (`LEN_STEP`, `type(self).__name__`) and methods (`get_mean_speed`,
  `get_spent_calories`) match on the constructor, exactly mirroring which
  class overrides what in the source.
-/

namespace Homework

/-- Python runtime faults that the script can raise. -/
inductive PyError
  | notImplementedError
  | zeroDivisionError
  deriving DecidableEq

/-- Python division: raises `ZeroDivisionError` when the denominator is
zero (true for ints and floats alike), otherwise exact division. -/
def pyDiv (a b : ℚ) : Except PyError ℚ :=
  if b = 0 then Except.error PyError.zeroDivisionError else Except.ok (a / b)

/-- Class attribute `Training.M_IN_KM = 1000`. -/
def M_IN_KM : ℚ := 1000

/-- Class attribute `Training.HOURS_IN_MINUTES = 60`. -/
def HOURS_IN_MINUTES : ℚ := 60

/-- `Running.CALORIES_MEAN_SPEED_MULTIPLIER = 18`. -/
def CALORIES_MEAN_SPEED_MULTIPLIER : ℚ := 18

/-- `Running.CALORIES_MEAN_SPEED_SHIFT = 1.79`. -/
def CALORIES_MEAN_SPEED_SHIFT : ℚ := 1.79

/-- `SportsWalking.WEIGHT_COEFF = 0.035`. -/
def WEIGHT_COEFF : ℚ := 0.035

/-- `SportsWalking.HEIGHT_COEFF = 0.029`. -/
def HEIGHT_COEFF : ℚ := 0.029

/-- `SportsWalking.KILOM_PER_HOUR_IN_METR_PER_SEC = 0.278`. -/
def KILOM_PER_HOUR_IN_METR_PER_SEC : ℚ := 0.278

/-- `SportsWalking.METR_IN_SANTIMETR = 100`. -/
def METR_IN_SANTIMETR : ℚ := 100

/-- `Swimming.SPEED_COEFF = 1.1`. -/
def SPEED_COEFF : ℚ := 1.1

/-- `Swimming.SUM_SPEED_COEFF = 2`. -/
def SUM_SPEED_COEFF : ℚ := 2

/-- The class hierarchy: base class `Training` (instantiable in Python)
and its three subclasses, each with the fields its `__init__` stores. -/
inductive Training
  | base (action duration weight : ℚ)
  | running (action duration weight : ℚ)
  | sportsWalking (action duration weight height : ℚ)
  | swimming (action duration weight length_pool count_pool : ℚ)
  deriving DecidableEq

/-- Field `self.action` (stored by the shared `Training.__init__`). -/
def Training.action : Training → ℚ
  | .base a _ _ => a
  | .running a _ _ => a
  | .sportsWalking a _ _ _ => a
  | .swimming a _ _ _ _ => a

/-- Field `self.duration` (stored by the shared `Training.__init__`). -/
def Training.duration : Training → ℚ
  | .base _ d _ => d
  | .running _ d _ => d
  | .sportsWalking _ d _ _ => d
  | .swimming _ d _ _ _ => d

/-- Field `self.weight` (stored by the shared `Training.__init__`). -/
def Training.weight : Training → ℚ
  | .base _ _ w => w
  | .running _ _ w => w
  | .sportsWalking _ _ w _ => w
  | .swimming _ _ w _ _ => w

/-- Dynamically dispatched class attribute `self.LEN_STEP`:
`0.65` on `Training` (inherited by `Running` and `SportsWalking`),
overridden to `1.38` on `Swimming`. -/
def Training.LEN_STEP : Training → ℚ
  | .swimming _ _ _ _ _ => 1.38
  | _ => 0.65

/-- `type(self).__name__`, the class's own name. -/
def Training.className : Training → String
  | .base _ _ _ => "Training"
  | .running _ _ _ => "Running"
  | .sportsWalking _ _ _ _ => "SportsWalking"
  | .swimming _ _ _ _ _ => "Swimming"

/-- `Training.get_distance`: `self.action * self.LEN_STEP / self.M_IN_KM`.
`Swimming.get_distance` is literally `return super().get_distance()`, so
every class uses this one formula (with its own `LEN_STEP`); the divisor
is the constant 1000, so no fault is possible. -/
def Training.get_distance (t : Training) : ℚ :=
  t.action * t.LEN_STEP / M_IN_KM

/-- `get_mean_speed`: the base class computes
`self.get_distance() / self.duration`; `Swimming` overrides it to
`self.length_pool * self.count_pool / self.M_IN_KM / self.duration`.
The division by `self.duration` can raise `ZeroDivisionError`. -/
def Training.get_mean_speed (t : Training) : Except PyError ℚ :=
  match t with
  | .swimming _ d _ lp cp => pyDiv (lp * cp / M_IN_KM) d
  | _ => pyDiv t.get_distance t.duration

/-- `get_spent_calories`: `raise NotImplementedError` on the base class;
each subclass overrides it with its own formula, translated literally. -/
def Training.get_spent_calories (t : Training) : Except PyError ℚ :=
  match t with
  | .base _ _ _ => Except.error PyError.notImplementedError
  | .running _ d w => do
      let speed ← t.get_mean_speed
      let duration_in_minutes := d * HOURS_IN_MINUTES
      Except.ok ((CALORIES_MEAN_SPEED_MULTIPLIER * speed
          + CALORIES_MEAN_SPEED_SHIFT) * w / M_IN_KM * duration_in_minutes)
  | .sportsWalking _ d w h => do
      let duration_in_minutes := d * HOURS_IN_MINUTES
      let ms ← t.get_mean_speed
      let speed_in_minute := ms * KILOM_PER_HOUR_IN_METR_PER_SEC
      let height_in_metr := h / METR_IN_SANTIMETR
      let sq ← pyDiv (speed_in_minute ^ 2) height_in_metr
      Except.ok ((WEIGHT_COEFF * w + sq * HEIGHT_COEFF * w)
          * duration_in_minutes)
  | .swimming _ d w _ _ => do
      let speed ← t.get_mean_speed
      Except.ok ((speed + SPEED_COEFF) * SUM_SPEED_COEFF * w * d)

/-- The `InfoMessage` record: the five values its `__init__` stores. -/
structure InfoMessage where
  training_type : String
  duration : ℚ
  distance : ℚ
  speed : ℚ
  calories : ℚ
  deriving DecidableEq

/-- Round a rational to the nearest integer, ties to even — the rounding
Python's fixed-point `format` performs. -/
def roundHalfEven (q : ℚ) : ℤ :=
  let f := Int.floor q
  let r := q - (f : ℚ)
  if r < 1 / 2 then f
  else if 1 / 2 < r then f + 1
  else if f % 2 = 0 then f else f + 1

/-- Zero-pad a fractional part (already reduced mod 1000) to three digits. -/
def pad3 (n : ℕ) : String :=
  if n < 10 then "00" ++ toString n
  else if n < 100 then "0" ++ toString n
  else toString n

/-- Python's `f'{x:.3f}'`: the value rounded to three decimal places and
rendered with exactly three digits after the point. -/
def pyFormat3 (x : ℚ) : String :=
  let n := roundHalfEven (x * 1000)
  let sign := if x < 0 ∨ n < 0 then "-" else ""
  let m := n.natAbs
  sign ++ toString (m / 1000) ++ "." ++ pad3 (m % 1000)

/-- `InfoMessage.get_message`: the f-string template, with each numeric
field formatted by `:.3f`. -/
def InfoMessage.get_message (m : InfoMessage) : String :=
  "Тип тренировки: " ++ m.training_type
    ++ "; Длительность: " ++ pyFormat3 m.duration
    ++ " ч.; Дистанция: " ++ pyFormat3 m.distance
    ++ " км; Ср. скорость: " ++ pyFormat3 m.speed
    ++ " км/ч; Потрачено ккал: " ++ pyFormat3 m.calories ++ "."

/-- `Training.show_training_info`: builds the `InfoMessage` from
`type(self).__name__`, `self.duration`, `self.get_distance()`,
`self.get_mean_speed()`, `self.get_spent_calories()` (evaluated left to
right; a fault in any of them propagates). -/
def Training.show_training_info (t : Training) : Except PyError InfoMessage := do
  let s ← t.get_mean_speed
  let c ← t.get_spent_calories
  Except.ok ⟨t.className, t.duration, t.get_distance, s, c⟩

/-- `Swimming(*data)`: positional binding of a 5-element argument list;
any other length is a `TypeError` (modelled as `none`). -/
def Swimming.ofData : List ℚ → Option Training
  | [a, d, w, lp, cp] => some (Training.swimming a d w lp cp)
  | _ => none

/-- `Running(*data)`: positional binding of a 3-element argument list. -/
def Running.ofData : List ℚ → Option Training
  | [a, d, w] => some (Training.running a d w)
  | _ => none

/-- `SportsWalking(*data)`: positional binding of a 4-element list. -/
def SportsWalking.ofData : List ℚ → Option Training
  | [a, d, w, h] => some (Training.sportsWalking a d w h)
  | _ => none

/-- Outcome of `read_package`: a constructed record, an uncaught
`TypeError` from a wrong-arity argument list, or process termination
(`print(message)` followed by `sys.exit()`, whose exit status is 0). -/
inductive ReadPackageResult
  | constructed (t : Training)
  | typeErrorRaised
  | exited (message : String) (status : Nat)
  deriving DecidableEq

/-- `read_package`: looks the workout code up in the literal dict
`{'SWM': Swimming, 'RUN': Running, 'WLK': SportsWalking}` and calls the
constructor on the unpacked data.  A missing key raises `KeyError`
*before* any constructor runs; the `except KeyError` handler prints
`'Передан неизвестный workout_type'` and calls `sys.exit()` (clean exit,
status 0).  A `TypeError` from a wrong argument count is not caught. -/
def read_package (workout_type : String) (data : List ℚ) : ReadPackageResult :=
  let ctor : Option (List ℚ → Option Training) :=
    if workout_type = "SWM" then some Swimming.ofData
    else if workout_type = "RUN" then some Running.ofData
    else if workout_type = "WLK" then some SportsWalking.ofData
    else none
  match ctor with
  | some c =>
      match c data with
      | some t => ReadPackageResult.constructed t
      | none => ReadPackageResult.typeErrorRaised
  | none => ReadPackageResult.exited ("Передан неизвестный workout_type") 0

/-! ## Theorems about the embedded program -/

/-- C1 counterexample: for `Running(15000, 1, 75)` the computed calories are
exactly `(18 * 9.75 + 1.79) * 75 / 1000 * 60 = 797.805`, which is not the
spec's stated approximation `801.21` (nor within any 3-decimal rounding of
it). -/
theorem running_example_calories_ne_spec_approx :
    Training.get_spent_calories (Training.running 15000 1 75)
      = Except.ok ((18 * 9.75 + 1.79) * 75 / 1000 * 60 : ℚ) ∧
    ((18 * 9.75 + 1.79) * 75 / 1000 * 60 : ℚ) = 797.805 ∧
    ¬ ((18 * 9.75 + 1.79) * 75 / 1000 * 60 : ℚ) = 801.21 := by
  refine ⟨?_, by norm_num, by norm_num⟩
  simp [Training.get_spent_calories, Training.get_mean_speed, Training.get_distance,
    Training.action, Training.duration, Training.weight, Training.LEN_STEP, M_IN_KM,
    HOURS_IN_MINUTES, CALORIES_MEAN_SPEED_MULTIPLIER, CALORIES_MEAN_SPEED_SHIFT, pyDiv,
    bind, Except.bind]
  norm_num

/-- C1 (amended): for `Running(15000, 1, 75)`: `get_distance` returns 9.750 km,
`get_mean_speed` returns 9.750 km/h, and `get_spent_calories` returns
`(18 * 9.75 + 1.79) * 75 / 1000 * 60`, which equals exactly 797.805. -/
theorem running_example_stats :
    Training.get_distance (Training.running 15000 1 75) = 9.750 ∧
    Training.get_mean_speed (Training.running 15000 1 75) = Except.ok (9.750 : ℚ) ∧
    Training.get_spent_calories (Training.running 15000 1 75)
      = Except.ok ((18 * 9.75 + 1.79) * 75 / 1000 * 60 : ℚ) ∧
    ((18 * 9.75 + 1.79) * 75 / 1000 * 60 : ℚ) = 797.805 := by
  refine ⟨?_, ?_, ?_, by norm_num⟩
  · simp [Training.get_distance, Training.action, Training.LEN_STEP, M_IN_KM]
    norm_num
  · simp [Training.get_mean_speed, Training.get_distance, Training.action, Training.duration,
      Training.LEN_STEP, M_IN_KM, pyDiv]
    norm_num
  · simp [Training.get_spent_calories, Training.get_mean_speed, Training.get_distance,
      Training.action, Training.duration, Training.weight, Training.LEN_STEP, M_IN_KM,
      HOURS_IN_MINUTES, CALORIES_MEAN_SPEED_MULTIPLIER, CALORIES_MEAN_SPEED_SHIFT, pyDiv,
      bind, Except.bind]
    norm_num

/-- C2: every Swimming record's `get_distance` is `action * 1.38 / 1000` (the
base step-length formula with swimming's `LEN_STEP = 1.38`), independent of
`length_pool` and `count_pool`; for `action = 720` it is `720 * 1.38 / 1000`,
formatted by `:.3f` as "0.994". -/
theorem swimming_distance_base_formula :
    (∀ a d w lp cp : ℚ,
      Training.get_distance (Training.swimming a d w lp cp) = a * 1.38 / 1000) ∧
    (∀ a d w lp cp lq cq : ℚ,
      Training.get_distance (Training.swimming a d w lp cp)
        = Training.get_distance (Training.swimming a d w lq cq)) ∧
    Training.get_distance (Training.swimming 720 1 80 25 40) = 720 * 1.38 / 1000 ∧
    pyFormat3 (Training.get_distance (Training.swimming 720 1 80 25 40)) = "0.994" := by
  refine ⟨?_, ?_, ?_, ?_⟩
  · intro a d w lp cp
    simp [Training.get_distance, Training.action, Training.LEN_STEP, M_IN_KM]
  · intro a d w lp cp lq cq
    simp [Training.get_distance, Training.action, Training.LEN_STEP]
  · simp [Training.get_distance, Training.action, Training.LEN_STEP, M_IN_KM]
  · have hval : Training.get_distance (Training.swimming 720 1 80 25 40) = 621 / 625 := by
      simp [Training.get_distance, Training.action, Training.LEN_STEP, M_IN_KM]
      norm_num
    rw [hval]
    have hr : roundHalfEven ((621 / 625 : ℚ) * 1000) = 994 := by
      unfold roundHalfEven
      norm_num
    simp only [pyFormat3, hr]
    norm_num
    rfl

/-- C3: for every workout code outside `SWM`, `RUN`, `WLK` and any argument
list, `read_package` constructs nothing and ends in the exit outcome: the
fixed diagnostic is printed and the process terminates via `sys.exit()`
(clean exit, status 0), not a raised fault. -/
theorem read_package_unknown_code_exits (wt : String) (data : List ℚ)
    (h1 : wt ≠ "SWM") (h2 : wt ≠ "RUN") (h3 : wt ≠ "WLK") :
    read_package wt data
      = ReadPackageResult.exited ("Передан неизвестный workout_type") 0 := by
  simp [read_package, h1, h2, h3]

/-- Witness for C3 at the script's own example: code "QWE" with the walking
argument list. -/
theorem read_package_unknown_code_exits_witness :
    read_package ("QWE") [9000, 1, 75, 180]
      = ReadPackageResult.exited ("Передан неизвестный workout_type") 0 :=
  read_package_unknown_code_exits ("QWE") [9000, 1, 75, 180]
    (by decide) (by decide) (by decide)

/-- C4: for every SportsWalking record with positive duration and height,
`get_spent_calories` returns
`(0.035 * weight + (s * 0.278) ^ 2 / (height / 100) * 0.029 * weight) * (duration * 60)`
where `s` is the record's mean speed in km/h. -/
theorem walking_calories_formula (a d w h : ℚ) (hd : 0 < d) (hh : 0 < h) :
    ∃ s, Training.get_mean_speed (Training.sportsWalking a d w h) = Except.ok s ∧
      Training.get_spent_calories (Training.sportsWalking a d w h)
        = Except.ok ((0.035 * w + (s * 0.278) ^ 2 / (h / 100) * 0.029 * w) * (d * 60)) := by
  have hh100 : h / 100 ≠ 0 := div_ne_zero hh.ne' (by norm_num)
  refine ⟨a * 0.65 / 1000 / d, ?_, ?_⟩
  · simp [Training.get_mean_speed, Training.get_distance, Training.action, Training.duration,
      Training.LEN_STEP, M_IN_KM, pyDiv, hd.ne']
  · simp [Training.get_spent_calories, Training.get_mean_speed, Training.get_distance,
      Training.action, Training.duration, Training.weight, Training.LEN_STEP, M_IN_KM,
      HOURS_IN_MINUTES, WEIGHT_COEFF, HEIGHT_COEFF, KILOM_PER_HOUR_IN_METR_PER_SEC,
      METR_IN_SANTIMETR, pyDiv, bind, Except.bind, hd.ne', hh100]

/-- Witness for C4 at the script's walking example `WLK [9000, 1, 75, 180]`. -/
theorem walking_calories_formula_witness :
    ∃ s, Training.get_mean_speed (Training.sportsWalking 9000 1 75 180) = Except.ok s ∧
      Training.get_spent_calories (Training.sportsWalking 9000 1 75 180)
        = Except.ok ((0.035 * 75 + (s * 0.278) ^ 2 / (180 / 100) * 0.029 * 75) * (1 * 60)) :=
  walking_calories_formula 9000 1 75 180 one_pos (by norm_num)

/-- C5: every Swimming record with positive duration has mean speed
`(length_pool * count_pool / 1000) / duration` (the pool-based override of
the base distance/duration formula); with `length_pool = 25`,
`count_pool = 40`, `duration = 1` it is exactly 1 km/h. -/
theorem swimming_mean_speed_formula (a d w lp cp : ℚ) (hd : 0 < d) :
    Training.get_mean_speed (Training.swimming a d w lp cp)
      = Except.ok (lp * cp / 1000 / d) ∧
    Training.get_mean_speed (Training.swimming 720 1 80 25 40) = Except.ok (1 : ℚ) := by
  constructor
  · simp [Training.get_mean_speed, M_IN_KM, pyDiv, hd.ne']
  · simp [Training.get_mean_speed, M_IN_KM, pyDiv]
    norm_num

/-- Witness for C5 at the script's swimming example `SWM [720, 1, 80, 25, 40]`. -/
theorem swimming_mean_speed_formula_witness :
    Training.get_mean_speed (Training.swimming 720 1 80 25 40)
      = Except.ok (25 * 40 / 1000 / 1 : ℚ) ∧
    Training.get_mean_speed (Training.swimming 720 1 80 25 40) = Except.ok (1 : ℚ) :=
  swimming_mean_speed_formula 720 1 80 25 40 one_pos

/-- C6: every Swimming record with positive duration burns
`(s + 1.1) * 2 * weight * duration` calories, where `s` is its pool-based
mean speed in km/h. -/
theorem swimming_calories_formula (a d w lp cp : ℚ) (hd : 0 < d) :
    ∃ s, Training.get_mean_speed (Training.swimming a d w lp cp) = Except.ok s ∧
      Training.get_spent_calories (Training.swimming a d w lp cp)
        = Except.ok ((s + 1.1) * 2 * w * d) := by
  refine ⟨lp * cp / 1000 / d, ?_, ?_⟩
  · simp [Training.get_mean_speed, M_IN_KM, pyDiv, hd.ne']
  · simp [Training.get_spent_calories, Training.get_mean_speed, Training.duration,
      Training.weight, M_IN_KM, SPEED_COEFF, SUM_SPEED_COEFF, pyDiv, bind, Except.bind,
      hd.ne']

/-- Witness for C6 at the script's swimming example `SWM [720, 1, 80, 25, 40]`. -/
theorem swimming_calories_formula_witness :
    ∃ s, Training.get_mean_speed (Training.swimming 720 1 80 25 40) = Except.ok s ∧
      Training.get_spent_calories (Training.swimming 720 1 80 25 40)
        = Except.ok ((s + 1.1) * 2 * 80 * 1) :=
  swimming_calories_formula 720 1 80 25 40 one_pos

/-- C7: whenever the mean speed and calories of a record compute without
fault, the report is the fixed five-field template — activity type name,
duration, distance, mean speed, calories, in that literal order — with every
numeric field formatted to exactly three decimal places by `pyFormat3`. -/
theorem report_message_template (t : Training) (s c : ℚ)
    (hs : t.get_mean_speed = Except.ok s)
    (hc : t.get_spent_calories = Except.ok c) :
    t.show_training_info
      = Except.ok ⟨t.className, t.duration, t.get_distance, s, c⟩ ∧
    InfoMessage.get_message ⟨t.className, t.duration, t.get_distance, s, c⟩
      = "Тип тренировки: " ++ t.className
        ++ "; Длительность: " ++ pyFormat3 t.duration
        ++ " ч.; Дистанция: " ++ pyFormat3 t.get_distance
        ++ " км; Ср. скорость: " ++ pyFormat3 s
        ++ " км/ч; Потрачено ккал: " ++ pyFormat3 c ++ "." := by
  constructor
  · simp [Training.show_training_info, hs, hc, bind, Except.bind]
  · rfl

/-- Witness for C7 at the script's running example `RUN [15000, 1, 75]`. -/
theorem report_message_template_witness :
    Training.show_training_info (Training.running 15000 1 75)
      = Except.ok ⟨Training.className (Training.running 15000 1 75),
          Training.duration (Training.running 15000 1 75),
          Training.get_distance (Training.running 15000 1 75),
          39 / 4, 159561 / 200⟩ :=
  (report_message_template (Training.running 15000 1 75) (39 / 4) (159561 / 200)
    (by
      simp [Training.get_mean_speed, Training.get_distance, Training.action,
        Training.duration, Training.LEN_STEP, M_IN_KM, pyDiv]
      norm_num)
    (by
      simp [Training.get_spent_calories, Training.get_mean_speed, Training.get_distance,
        Training.action, Training.duration, Training.weight, Training.LEN_STEP, M_IN_KM,
        HOURS_IN_MINUTES, CALORIES_MEAN_SPEED_MULTIPLIER, CALORIES_MEAN_SPEED_SHIFT,
        pyDiv, bind, Except.bind]
      norm_num)).1

/-- C8: invoking `get_spent_calories` on the base `Training` type (not on one
of the three variants) raises `NotImplementedError` instead of returning a
number. -/
theorem base_calories_not_implemented (a d w : ℚ) :
    Training.get_spent_calories (Training.base a d w)
      = Except.error PyError.notImplementedError := rfl

/-- C9: numeric inputs are not validated: a record with `duration = 0` is
constructed without complaint (shown for `Running(*[a, 0, w])`), and its mean
speed — hence its report — surfaces a plain `ZeroDivisionError` rather than a
validated error. -/
theorem zero_duration_division_fault (t : Training) (h : t.duration = 0) :
    t.get_mean_speed = Except.error PyError.zeroDivisionError ∧
    t.show_training_info = Except.error PyError.zeroDivisionError ∧
    (∀ a w : ℚ, Running.ofData [a, 0, w] = some (Training.running a 0 w)) := by
  have hm : t.get_mean_speed = Except.error PyError.zeroDivisionError := by
    cases t <;> simp [Training.duration] at h <;>
      simp [Training.get_mean_speed, Training.get_distance, Training.duration, pyDiv, h]
  refine ⟨hm, ?_, fun a w => rfl⟩
  simp [Training.show_training_info, hm, bind, Except.bind]

/-- Witness for C9: `Running(15000, 0, 75)`. -/
theorem zero_duration_division_fault_witness :
    Training.get_mean_speed (Training.running 15000 0 75)
      = Except.error PyError.zeroDivisionError :=
  (zero_duration_division_fault (Training.running 15000 0 75) rfl).1

/-- C10: every successfully formatted report's activity-name field is the
implementation class's own name, hence one of the literal strings
"Swimming", "Running" or "SportsWalking" (never the base class), embedded in
the fixed Russian-language template. -/
theorem report_class_names (t : Training) (info : InfoMessage)
    (h : t.show_training_info = Except.ok info) :
    info.training_type = t.className ∧
    (info.training_type = "Swimming" ∨ info.training_type = "Running"
      ∨ info.training_type = "SportsWalking") ∧
    info.get_message
      = "Тип тренировки: " ++ info.training_type
        ++ "; Длительность: " ++ pyFormat3 info.duration
        ++ " ч.; Дистанция: " ++ pyFormat3 info.distance
        ++ " км; Ср. скорость: " ++ pyFormat3 info.speed
        ++ " км/ч; Потрачено ккал: " ++ pyFormat3 info.calories ++ "." := by
  have key : ∃ s c, t.get_mean_speed = Except.ok s ∧ t.get_spent_calories = Except.ok c ∧
      info = ⟨t.className, t.duration, t.get_distance, s, c⟩ := by
    rcases hm : t.get_mean_speed with e | s
    · simp only [Training.show_training_info, hm, bind, Except.bind] at h
      exact (Except.noConfusion h)
    · rcases hc : t.get_spent_calories with e | c
      · simp only [Training.show_training_info, hm, hc, bind, Except.bind] at h
        exact (Except.noConfusion h)
      · simp only [Training.show_training_info, hm, hc, bind, Except.bind] at h
        exact ⟨s, c, rfl, rfl, (Except.ok.inj h).symm⟩
  obtain ⟨s, c, hm, hc, hinfo⟩ := key
  subst hinfo
  refine ⟨rfl, ?_, rfl⟩
  cases t with
  | base a d w =>
      exact absurd hc (by simp [Training.get_spent_calories])
  | running a d w =>
      right; left; rfl
  | sportsWalking a d w ht =>
      right; right; rfl
  | swimming a d w lp cp =>
      left; rfl

/-- Witness for C10 at the script's swimming example `SWM [720, 1, 80, 25, 40]`. -/
theorem report_class_names_witness :
    (⟨"Swimming", 1, 621 / 625, 1, 336⟩ : InfoMessage).training_type = "Swimming" ∨
    (⟨"Swimming", 1, 621 / 625, 1, 336⟩ : InfoMessage).training_type = "Running" ∨
    (⟨"Swimming", 1, 621 / 625, 1, 336⟩ : InfoMessage).training_type = "SportsWalking" :=
  (report_class_names (Training.swimming 720 1 80 25 40)
    ⟨"Swimming", 1, 621 / 625, 1, 336⟩
    (by
      simp [Training.show_training_info, Training.get_spent_calories,
        Training.get_mean_speed, Training.get_distance, Training.action, Training.duration,
        Training.weight, Training.LEN_STEP, Training.className, M_IN_KM, SPEED_COEFF,
        SUM_SPEED_COEFF, pyDiv, bind, Except.bind]
      norm_num)).2.1

end Homework
